import Mathlib

/-!
Shallow embedding of the holepunch service controller
(controllers/service_controller.go) in Lean 4.

Services are modelled by the fields the controller reads: the metadata
key/value mapping, the declared service type, the declared ports with
their protocols, and the load-balancer ingress IPs.  Go map iteration is
modelled by a list of key/value pairs; a genuine Go map has unique keys,
which appears as a `Nodup` hypothesis where a claim needs it.

The router (UPnP gateway) is modelled as a record of response functions,
and `reconcile` returns, besides the (requeue, error) pair the Go
function returns, the trace of gateway calls it issued, in order.
-/

namespace Holepunch

/-- The opt-in flag key, constant `holepunchAnnotationName` in the source. -/
def holepunchAnnotationName : String := "holepunch/punch-external"

/-- The port-remap key start, constant `holepunchPortMapAnnotationPrefix` in the source. -/
def holepunchPortMapAnnotationStart : String := "holepunch.port/"

/-- Constant `leaseDurationSeconds` in the source. -/
def leaseDurationSeconds : Nat := 3600

/-- `hasHolepunchAnnotation` from the source: iterate over the metadata
pairs; at the first pair whose key is the flag key, return whether the
value is exactly `"true"`; if the key never occurs, return `false`. -/
def hasHolepunchAnnot : List (String × String) → Bool
  | [] => false
  | (name, value) :: rest =>
    if name = holepunchAnnotationName then value = "true"
    else hasHolepunchAnnot rest

/-- Model of Go `strconv.ParseUint(s, 10, 16)`: succeeds iff `s` is a
nonempty string of ASCII decimal digits whose value fits in 16 bits. -/
def parseUint16 (s : String) : Option Nat :=
  if s.data.isEmpty then none
  else if s.data.all Char.isDigit then
    let v := s.data.foldl (fun a c => 10 * a + (c.toNat - 48)) 0
    if v < 65536 then some v else none
  else none

/-- Model of Go `strings.HasPrefix` on character sequences. -/
def charsStartWith : List Char → List Char → Bool
  | _, [] => true
  | [], _ :: _ => false
  | c :: s, p :: ps => if c = p then charsStartWith s ps else false

/-- `strings.HasPrefix(s, pre)` on the model strings. -/
def hasPre (s pre : String) : Bool := charsStartWith s.data pre.data

/-- `strings.TrimPrefix(s, pre)` when the prefix is known to be present:
drop as many characters as the prefix has (the prefix here is ASCII, so
Go's byte count coincides with the character count). -/
def trimPre (s pre : String) : String := String.mk (s.data.drop pre.data.length)

/-- Insert into the port-remap table with Go map assignment semantics:
overwrite an existing key, otherwise append. -/
def insertPM (m : List (Nat × Nat)) (k v : Nat) : List (Nat × Nat) :=
  if m.any (fun p => p.1 = k) then
    m.map (fun p => if p.1 = k then (k, v) else p)
  else m ++ [(k, v)]

/-- Go map lookup `m[k]` on the port-remap table: value of the first
(and, by construction, only) entry with key `k`. -/
def lookupPM (m : List (Nat × Nat)) (k : Nat) : Option Nat :=
  (m.find? (fun p => p.1 = k)).map (fun p => p.2)

/-- Loop body of `getHolepunchPortMapping` from the source: scan the
metadata pairs; for a key starting with the remap key start, parse the
key suffix and the value as 16-bit unsigned integers, failing the whole
scan on the first malformed pair, and otherwise record suffix ↦ value. -/
def getHolepunchPortMappingAux :
    List (String × String) → List (Nat × Nat) → Except String (List (Nat × Nat))
  | [], acc => Except.ok acc
  | (annotationName, annotationValue) :: rest, acc =>
    if hasPre annotationName holepunchPortMapAnnotationStart then
      match parseUint16 (trimPre annotationName holepunchPortMapAnnotationStart) with
      | none => Except.error ("invalid internal port in key " ++ annotationName)
      | some internalPort =>
        match parseUint16 annotationValue with
        | none => Except.error ("invalid external port " ++ annotationValue)
        | some externalPort =>
          getHolepunchPortMappingAux rest (insertPM acc internalPort externalPort)
    else getHolepunchPortMappingAux rest acc

/-- `getHolepunchPortMapping` from the source: either the internal→external
port remap table, or the first parse error; never both. -/
def getHolepunchPortMapping (anns : List (String × String)) :
    Except String (List (Nat × Nat)) :=
  getHolepunchPortMappingAux anns []

/-- A metadata pair is malformed for the port-remap scan: its key starts
with the remap key start but its suffix or its value fails 16-bit parse. -/
def badRemapPair (p : String × String) : Bool :=
  hasPre p.1 holepunchPortMapAnnotationStart &&
    ((parseUint16 (trimPre p.1 holepunchPortMapAnnotationStart)).isNone ||
      (parseUint16 p.2).isNone)

/-- `getServiceIP` from the source: the first nonempty ingress IP, else
the "no IP available" error. -/
def getServiceIP : List String → Except String String
  | [] => Except.error "no IP available for LoadBalancer (not yet allocated?)"
  | ip :: rest => if ip = "" then getServiceIP rest else Except.ok ip

/-- `toUPnPProtocol` from the source: "TCP" and "UDP" map to themselves,
anything else (e.g. SCTP) is an unsupported-protocol error. -/
def toUPnPProtocol (serviceProtocol : String) : Except String String :=
  if serviceProtocol = "TCP" then Except.ok "TCP"
  else if serviceProtocol = "UDP" then Except.ok "UDP"
  else Except.error ("protocol type " ++ serviceProtocol ++ " not supported")

/-- Go's conversion `uint16(p)` of an `int32` port: the low 16 bits,
i.e. reduction modulo 2^16 (two's complement for negatives). -/
def toUint16 (p : Int) : Nat := (p % 65536).toNat

/-- The argument record of `RouterClient.AddPortMapping` from the source.
Ports and the lease are `Nat` with their 16/32-bit bounds maintained by
the callers (the source casts from already-bounded values). -/
structure AddPortMappingArgs where
  remoteHost : String
  externalPort : Nat
  protocol : String
  internalPort : Nat
  internalClient : String
  enabled : Bool
  description : String
  leaseDuration : Nat
deriving DecidableEq, Repr

/-- A discovered gateway client, modelled by its responses to the two
`RouterClient` operations. -/
structure RouterModel where
  getExternalIPAddress : Except String String
  addPortMapping : AddPortMappingArgs → Except String Unit

/-- The outcome of the five concurrent discovery tasks in
`PickRouterClient`: per protocol variant, the candidate-client list each
task produced and the error it returned.  `PickRouterClient` discards
the awaited errors (`tasks.Wait()` with its result dropped), which the
selection model below mirrors by ignoring the error fields. -/
structure DiscoveryResults (α : Type) where
  ip2Clients : List α
  ip1Clients : List α
  ppp1Clients : List α
  ip1V1Clients : List α
  ppp1V1Clients : List α
  ip2Err : Option String
  ip1Err : Option String
  ppp1Err : Option String
  ip1V1Err : Option String
  ppp1V1Err : Option String

/-- The selection switch of `PickRouterClient` from the source: first
candidate of the first non-empty list in the fixed order
ip2 > ip1 > ppp1 (internetgateway2) > ip1V1 > ppp1V1 (internetgateway1),
else the "No services found" error.  Task errors are ignored. -/
def PickRouterClient (d : DiscoveryResults α) : Except String α :=
  match d.ip2Clients with
  | c :: _ => Except.ok c
  | [] =>
    match d.ip1Clients with
    | c :: _ => Except.ok c
    | [] =>
      match d.ppp1Clients with
      | c :: _ => Except.ok c
      | [] =>
        match d.ip1V1Clients with
        | c :: _ => Except.ok c
        | [] =>
          match d.ppp1V1Clients with
          | c :: _ => Except.ok c
          | [] => Except.error "No services found"

/-- A gateway call issued during reconciliation, in the trace order. -/
inductive GatewayCall where
  | discover : GatewayCall
  | getExternalIP : GatewayCall
  | addPortMapping : AddPortMappingArgs → GatewayCall
deriving DecidableEq, Repr

/-- A declared service port: `Port` is `int32` in the Kubernetes API,
modelled by `Int`; the protocol string is `corev1.Protocol`. -/
structure ServicePort where
  port : Int
  protocol : String
deriving DecidableEq, Repr

/-- The fields of `corev1.Service` that `Reconcile` reads. -/
structure ServiceModel where
  name : String
  nspace : String
  annotations : List (String × String)
  svcType : String
  ports : List ServicePort
  ingressIPs : List String

/-- The `AddPortMapping` arguments built in the loop body of `Reconcile`
for internal port `portNumber` with resolved UPnP protocol `proto`:
empty remote host, external port from the remap table with identity
default, enabled, and the fixed lease duration. -/
def mkPortMappingArgs (portMapping : List (Nat × Nat)) (serviceIP description : String)
    (portNumber : Nat) (proto : String) : AddPortMappingArgs :=
  { remoteHost := ""
    externalPort := (lookupPM portMapping portNumber).getD portNumber
    protocol := proto
    internalPort := portNumber
    internalClient := serviceIP
    enabled := true
    description := description
    leaseDuration := leaseDurationSeconds }

/-- The port loop of `Reconcile` (lines issuing one `AddPortMapping` per
declared port, in order): returns the trace of issued calls and the
first error, stopping at it.  A protocol-resolution failure aborts
before any call for that port is issued. -/
def applyForwards (router : RouterModel) (portMapping : List (Nat × Nat))
    (serviceIP description : String) :
    List ServicePort → List GatewayCall × Option String
  | [] => ([], none)
  | sp :: rest =>
    let portNumber := toUint16 sp.port
    match toUPnPProtocol sp.protocol with
    | Except.error e => ([], some e)
    | Except.ok proto =>
      let args := mkPortMappingArgs portMapping serviceIP description portNumber proto
      match router.addPortMapping args with
      | Except.error e => ([GatewayCall.addPortMapping args], some e)
      | Except.ok _ =>
        let out := applyForwards router portMapping serviceIP description rest
        (GatewayCall.addPortMapping args :: out.1, out.2)

/-- The value `Reconcile` produces, together with the trace of gateway
calls: `requeueAfterSeconds` models `ctrl.Result.RequeueAfter` in
seconds and `err` the returned Go error. -/
structure ReconcileOutput where
  calls : List GatewayCall
  requeueAfterSeconds : Nat
  err : Option String
deriving DecidableEq, Repr

/-- `Reconcile` from the source (the service already fetched), over a
given discovery outcome: skip silently unless the opt-in flag value is
exactly "true"; skip silently (log only) when the type is not
LoadBalancer; then parse the port remap, pick a router, ask its external
IP, find the service ingress IP, forward every declared port, and on
full success request a requeue of lease duration minus 30 seconds. -/
def reconcile (service : ServiceModel) (d : DiscoveryResults RouterModel) :
    ReconcileOutput :=
  if ¬ hasHolepunchAnnot service.annotations then
    { calls := [], requeueAfterSeconds := 0, err := none }
  else if service.svcType ≠ "LoadBalancer" then
    { calls := [], requeueAfterSeconds := 0, err := none }
  else
    match getHolepunchPortMapping service.annotations with
    | Except.error e => { calls := [], requeueAfterSeconds := 0, err := some e }
    | Except.ok portMapping =>
      match PickRouterClient d with
      | Except.error e =>
        { calls := [GatewayCall.discover], requeueAfterSeconds := 0, err := some e }
      | Except.ok router =>
        match router.getExternalIPAddress with
        | Except.error e =>
          { calls := [GatewayCall.discover, GatewayCall.getExternalIP],
            requeueAfterSeconds := 0, err := some e }
        | Except.ok _ =>
          match getServiceIP service.ingressIPs with
          | Except.error e =>
            { calls := [GatewayCall.discover, GatewayCall.getExternalIP],
              requeueAfterSeconds := 0, err := some e }
          | Except.ok serviceIP =>
            let description := "Mapping for " ++ service.name ++ "/" ++ service.nspace
            let out := applyForwards router portMapping serviceIP description service.ports
            match out.2 with
            | some e =>
              { calls := GatewayCall.discover :: GatewayCall.getExternalIP :: out.1,
                requeueAfterSeconds := 0, err := some e }
            | none =>
              { calls := GatewayCall.discover :: GatewayCall.getExternalIP :: out.1,
                requeueAfterSeconds := leaseDurationSeconds - 30, err := none }

/-- The UPnP protocol string for a declared port, when its protocol is a
supported one (the value is irrelevant otherwise). -/
def upnpProto (sp : ServicePort) : String :=
  match toUPnPProtocol sp.protocol with
  | Except.ok p => p
  | Except.error _ => ""

/-- The `AddPortMapping` arguments the port loop issues for a declared
port whose protocol resolves. -/
def argsFor (portMapping : List (Nat × Nat)) (serviceIP description : String)
    (sp : ServicePort) : AddPortMappingArgs :=
  mkPortMappingArgs portMapping serviceIP description (toUint16 sp.port) (upnpProto sp)

/-- Fixture: a gateway that accepts every request. -/
def okRouter : RouterModel :=
  { getExternalIPAddress := Except.ok "203.0.113.7"
    addPortMapping := fun _ => Except.ok () }

/-- Fixture: a gateway that rejects the mapping for internal port 443
and accepts every other request. -/
def failOn443Router : RouterModel :=
  { getExternalIPAddress := Except.ok "203.0.113.7"
    addPortMapping := fun a =>
      if a.internalPort = 443 then Except.error "router refused" else Except.ok () }

/-- Fixture: discovery found a single generation-2 IP-connection client;
one unrelated task reported an error, which `PickRouterClient` ignores. -/
def oneRouterDisc (r : RouterModel) : DiscoveryResults RouterModel :=
  { ip2Clients := [r], ip1Clients := [], ppp1Clients := [], ip1V1Clients := [],
    ppp1V1Clients := [], ip2Err := none, ip1Err := none,
    ppp1Err := some "discovery timed out", ip1V1Err := none, ppp1V1Err := none }

/-- Fixture: discovery found nothing and reported no task errors. -/
def emptyRouterDisc : DiscoveryResults RouterModel :=
  { ip2Clients := [], ip1Clients := [], ppp1Clients := [], ip1V1Clients := [],
    ppp1V1Clients := [], ip2Err := none, ip1Err := none, ppp1Err := none,
    ip1V1Err := none, ppp1V1Err := none }

/-- Fixture over `Nat` clients: every variant has candidates and one
task reported an error. -/
def natDiscAll : DiscoveryResults Nat :=
  { ip2Clients := [2, 20], ip1Clients := [1], ppp1Clients := [3], ip1V1Clients := [4],
    ppp1V1Clients := [5], ip2Err := none, ip1Err := some "task failed",
    ppp1Err := none, ip1V1Err := none, ppp1V1Err := none }

/-- Fixture over `Nat` clients: no variant has candidates, although
tasks reported errors. -/
def natDiscEmpty : DiscoveryResults Nat :=
  { ip2Clients := [], ip1Clients := [], ppp1Clients := [], ip1V1Clients := [],
    ppp1V1Clients := [], ip2Err := some "task failed", ip1Err := none,
    ppp1Err := some "task failed", ip1V1Err := none, ppp1V1Err := none }

/-- Fixture: the spec's remap scenario — opted in, LoadBalancer, remap
80↦3000 and 443↦4000, declared ports 80, 443 and 8080, allocated IP. -/
def scenarioService : ServiceModel :=
  { name := "my-service", nspace := "default"
    annotations := [("holepunch/punch-external", "true"), ("holepunch.port/80", "3000"),
      ("holepunch.port/443", "4000")]
    svcType := "LoadBalancer"
    ports := [⟨80, "TCP"⟩, ⟨443, "TCP"⟩, ⟨8080, "TCP"⟩]
    ingressIPs := ["192.168.1.50"] }

/-- Fixture: an opted-in service that is not a LoadBalancer. -/
def notLBService : ServiceModel :=
  { name := "my-service", nspace := "default"
    annotations := [("holepunch/punch-external", "true")]
    svcType := "ClusterIP"
    ports := [⟨80, "TCP"⟩]
    ingressIPs := [] }

/-- Fixture: an opted-in LoadBalancer with no allocated ingress IP. -/
def noIPService : ServiceModel :=
  { name := "my-service", nspace := "default"
    annotations := [("holepunch/punch-external", "true")]
    svcType := "LoadBalancer"
    ports := [⟨80, "TCP"⟩]
    ingressIPs := [] }

/-- Fixture: an opted-in LoadBalancer declaring port values outside the
0–65535 range (70000, and -1 as a stand-in for a negative int32). -/
def wrapService : ServiceModel :=
  { name := "wrap", nspace := "default"
    annotations := [("holepunch/punch-external", "true")]
    svcType := "LoadBalancer"
    ports := [⟨70000, "TCP"⟩, ⟨-1, "TCP"⟩]
    ingressIPs := ["10.0.0.9"] }

/-- C1: a service is treated as opted in iff its metadata carries the
key "holepunch/punch-external" with value exactly the string "true";
any other value (such as "TRUE" or "1") or absence of the key means not
opted in.  The `Nodup` hypothesis is the Go-map invariant that metadata
keys are unique. -/
theorem hasHolepunchAnnot_iff_strict_true (anns : List (String × String))
    (h : (anns.map Prod.fst).Nodup) :
    hasHolepunchAnnot anns = true ↔ (holepunchAnnotationName, "true") ∈ anns := by
  induction anns with
  | nil => simp [hasHolepunchAnnot]
  | cons p rest ih =>
    obtain ⟨n, v⟩ := p
    simp only [List.map_cons, List.nodup_cons] at h
    obtain ⟨hn, hrest⟩ := h
    by_cases hname : n = holepunchAnnotationName
    · subst hname
      simp only [hasHolepunchAnnot, eq_self_iff_true, if_true, decide_eq_true_eq,
        List.mem_cons]
      constructor
      · intro hv
        exact Or.inl (by rw [hv])
      · rintro (heq | hmem)
        · exact (Prod.mk.injEq _ _ _ _ |>.mp heq.symm).2
        · exact absurd (List.mem_map_of_mem Prod.fst hmem) hn
    · simp only [hasHolepunchAnnot, if_neg hname, List.mem_cons]
      rw [ih hrest]
      constructor
      · exact Or.inr
      · rintro (heq | hmem)
        · exact absurd (Prod.mk.injEq _ _ _ _ |>.mp heq.symm).1 hname
        · exact hmem

/-- C1 witness: concrete metadata with the flag set to "true" is opted
in, via the main theorem. -/
theorem hasHolepunchAnnot_witness :
    hasHolepunchAnnot [("holepunch/punch-external", "true"), ("other", "x")] = true :=
  (hasHolepunchAnnot_iff_strict_true
    [("holepunch/punch-external", "true"), ("other", "x")] (by decide)).mpr (by decide)

/-- The port-remap scan succeeds exactly when no metadata pair is
malformed, whatever table has been accumulated so far. -/
theorem portmap_aux_isOk (anns : List (String × String)) :
    ∀ acc, (getHolepunchPortMappingAux anns acc).isOk = anns.all (fun p => !badRemapPair p) := by
  induction anns with
  | nil => intro acc; rfl
  | cons p rest ih =>
    intro acc
    obtain ⟨k, v⟩ := p
    rw [List.all_cons]
    cases hp : hasPre k holepunchPortMapAnnotationStart with
    | false =>
      have hb : badRemapPair (k, v) = false := by simp [badRemapPair, hp]
      rw [hb, show getHolepunchPortMappingAux ((k, v) :: rest) acc =
        getHolepunchPortMappingAux rest acc from by simp [getHolepunchPortMappingAux, hp]]
      simp only [Bool.not_false, Bool.true_and]
      exact ih acc
    | true =>
      cases hik : parseUint16 (trimPre k holepunchPortMapAnnotationStart) with
      | none =>
        have hb : badRemapPair (k, v) = true := by simp [badRemapPair, hp, hik]
        rw [hb, show getHolepunchPortMappingAux ((k, v) :: rest) acc =
          Except.error ("invalid internal port in key " ++ k) from by
            simp [getHolepunchPortMappingAux, hp, hik]]
        rfl
      | some ip =>
        cases hev : parseUint16 v with
        | none =>
          have hb : badRemapPair (k, v) = true := by simp [badRemapPair, hp, hik, hev]
          rw [hb, show getHolepunchPortMappingAux ((k, v) :: rest) acc =
            Except.error ("invalid external port " ++ v) from by
              simp [getHolepunchPortMappingAux, hp, hik, hev]]
          rfl
        | some ep =>
          have hb : badRemapPair (k, v) = false := by simp [badRemapPair, hp, hik, hev]
          rw [hb, show getHolepunchPortMappingAux ((k, v) :: rest) acc =
            getHolepunchPortMappingAux rest (insertPM acc ip ep) from by
              simp [getHolepunchPortMappingAux, hp, hik, hev]]
          simp only [Bool.not_false, Bool.true_and]
          exact ih _

/-- C2: the port-remap parse fails iff some metadata key with the
"holepunch.port/" prefix has a suffix or value that is not a 16-bit
unsigned base-10 integer; on failure only the error is returned (the
`Except` result carries no table), and a valid pair such as
"holepunch.port/80" ↦ "3000" yields the mapping 80 ↦ 3000, while the
out-of-range value "70000" fails. -/
theorem getHolepunchPortMapping_fail_iff (anns : List (String × String)) :
    ((getHolepunchPortMapping anns).isOk = false ↔ ∃ p ∈ anns, badRemapPair p = true) ∧
    getHolepunchPortMapping
      [("holepunch/punch-external", "true"), ("holepunch.port/80", "3000"),
        ("holepunch.port/443", "4000")] = Except.ok [(80, 3000), (443, 4000)] ∧
    (getHolepunchPortMapping [("holepunch.port/80", "70000")]).isOk = false := by
  refine ⟨?_, by rfl, by rfl⟩
  rw [getHolepunchPortMapping, portmap_aux_isOk]
  simp [List.all_eq_true]

/-- C2 witness: the 70000 failure instance, via the main theorem. -/
theorem getHolepunchPortMapping_fail_witness :
    (getHolepunchPortMapping [("holepunch.port/80", "70000")]).isOk = false :=
  (getHolepunchPortMapping_fail_iff [("holepunch.port/80", "70000")]).1.mpr
    ⟨("holepunch.port/80", "70000"), by decide, by decide⟩

/-- C3 counterexample: an opted-in service of type ClusterIP is
reconciled with a nil error — the caller receives a successful (skipped)
result, not a Failed(NotLoadBalancer) error as the claim states. -/
theorem reconcile_notlb_counterexample :
    hasHolepunchAnnot notLBService.annotations = true ∧
    notLBService.svcType ≠ "LoadBalancer" ∧
    reconcile notLBService emptyRouterDisc =
      { calls := [], requeueAfterSeconds := 0, err := none } :=
  ⟨by decide, by decide, by rfl⟩

/-- C3 amended: for every opted-in service whose type is not
LoadBalancer, reconciliation logs the misconfiguration but returns a
successful result — no error is reported to the caller, no gateway call
is made and no requeue is requested. -/
theorem reconcile_notlb_skips (s : ServiceModel) (d : DiscoveryResults RouterModel)
    (hopt : hasHolepunchAnnot s.annotations = true)
    (hty : s.svcType ≠ "LoadBalancer") :
    reconcile s d = { calls := [], requeueAfterSeconds := 0, err := none } := by
  simp [reconcile, hopt, hty]

/-- C3 amended witness: the concrete opted-in ClusterIP service, via the
amended theorem. -/
theorem reconcile_notlb_skips_witness :
    reconcile notLBService emptyRouterDisc =
      { calls := [], requeueAfterSeconds := 0, err := none } :=
  reconcile_notlb_skips notLBService emptyRouterDisc (by decide) (by decide)

/-- When every ingress entry has an empty IP, `getServiceIP` returns the
"no IP available" error. -/
theorem getServiceIP_all_empty (l : List String) (h : ∀ ip ∈ l, ip = "") :
    getServiceIP l = Except.error "no IP available for LoadBalancer (not yet allocated?)" := by
  induction l with
  | nil => rfl
  | cons ip rest ih =>
    have hip : ip = "" := h ip (by simp)
    rw [getServiceIP, if_pos hip]
    exact ih (fun x hx => h x (by simp [hx]))

/-- C4 counterexample: for an opted-in LoadBalancer with no allocated
IP, reconciliation does fail with the no-IP error, but only after
issuing the gateway discovery and the GetExternalIPAddress call — the
trace is non-empty, contradicting the claim that no gateway discovery
and no gateway calls are performed. -/
theorem reconcile_noip_counterexample :
    (∀ ip ∈ noIPService.ingressIPs, ip = "") ∧
    reconcile noIPService (oneRouterDisc okRouter) =
      { calls := [GatewayCall.discover, GatewayCall.getExternalIP],
        requeueAfterSeconds := 0,
        err := some "no IP available for LoadBalancer (not yet allocated?)" } :=
  ⟨by decide, by rfl⟩

/-- C4 amended: for every opted-in LoadBalancer service with no
allocated ingress IP (given a parseable remap, a discovered router and a
successful external-IP query), reconciliation fails with the no-IP
error after gateway discovery and GetExternalIPAddress have been
performed, and no AddPortMapping call is issued. -/
theorem reconcile_noip_after_discovery (s : ServiceModel) (d : DiscoveryResults RouterModel)
    (router : RouterModel) (pm : List (Nat × Nat)) (eip : String)
    (hopt : hasHolepunchAnnot s.annotations = true)
    (hty : s.svcType = "LoadBalancer")
    (hpm : getHolepunchPortMapping s.annotations = Except.ok pm)
    (hpick : PickRouterClient d = Except.ok router)
    (hext : router.getExternalIPAddress = Except.ok eip)
    (hip : ∀ ip ∈ s.ingressIPs, ip = "") :
    reconcile s d =
      { calls := [GatewayCall.discover, GatewayCall.getExternalIP],
        requeueAfterSeconds := 0,
        err := some "no IP available for LoadBalancer (not yet allocated?)" } := by
  simp [reconcile, hopt, hty, hpm, hpick, hext, getServiceIP_all_empty s.ingressIPs hip]

/-- C4 amended witness: the concrete no-IP service, via the amended
theorem. -/
theorem reconcile_noip_after_discovery_witness :
    reconcile noIPService (oneRouterDisc okRouter) =
      { calls := [GatewayCall.discover, GatewayCall.getExternalIP],
        requeueAfterSeconds := 0,
        err := some "no IP available for LoadBalancer (not yet allocated?)" } :=
  reconcile_noip_after_discovery noIPService (oneRouterDisc okRouter) okRouter []
    "203.0.113.7" (by decide) (by rfl) (by rfl) (by rfl) (by rfl) (by decide)

/-- C5: gateway selection is deterministic in the fixed priority order
over the candidate lists — whichever discovery outcome is given (the
lists being the only input, completion order and task errors cannot
influence it), the chosen client is the first candidate of the
highest-priority non-empty list, in the order generation-2
IP-connection, generation-1 IP-connection, PPP-connection (newer
family), then the older family's IP- and PPP-connection variants. -/
theorem PickRouterClient_priority_order {α : Type} (d : DiscoveryResults α)
    (c : α) (rest : List α) :
    (d.ip2Clients = c :: rest → PickRouterClient d = Except.ok c) ∧
    (d.ip2Clients = [] → d.ip1Clients = c :: rest → PickRouterClient d = Except.ok c) ∧
    (d.ip2Clients = [] → d.ip1Clients = [] → d.ppp1Clients = c :: rest →
      PickRouterClient d = Except.ok c) ∧
    (d.ip2Clients = [] → d.ip1Clients = [] → d.ppp1Clients = [] →
      d.ip1V1Clients = c :: rest → PickRouterClient d = Except.ok c) ∧
    (d.ip2Clients = [] → d.ip1Clients = [] → d.ppp1Clients = [] → d.ip1V1Clients = [] →
      d.ppp1V1Clients = c :: rest → PickRouterClient d = Except.ok c) := by
  refine ⟨?_, ?_, ?_, ?_, ?_⟩ <;> intros <;> simp [PickRouterClient, *]

/-- C5 witness: with every variant non-empty, the first generation-2
IP-connection candidate is chosen, via the main theorem. -/
theorem PickRouterClient_priority_witness : PickRouterClient natDiscAll = Except.ok 2 :=
  (PickRouterClient_priority_order natDiscAll 2 [20]).1 (by rfl)

/-- C6: gateway selection returns the "No services found" error iff
every variant's candidate list is empty, and returns a client iff some
list is non-empty — the per-task error fields of the discovery outcome
are arbitrary here, so individual task errors cannot affect either
direction. -/
theorem PickRouterClient_error_iff_all_empty {α : Type} (d : DiscoveryResults α) :
    (PickRouterClient d = Except.error "No services found" ↔
      d.ip2Clients = [] ∧ d.ip1Clients = [] ∧ d.ppp1Clients = [] ∧
        d.ip1V1Clients = [] ∧ d.ppp1V1Clients = []) ∧
    ((∃ c, PickRouterClient d = Except.ok c) ↔
      ¬(d.ip2Clients = [] ∧ d.ip1Clients = [] ∧ d.ppp1Clients = [] ∧
        d.ip1V1Clients = [] ∧ d.ppp1V1Clients = [])) := by
  obtain ⟨l1, l2, l3, l4, l5, e1, e2, e3, e4, e5⟩ := d
  cases l1 <;> cases l2 <;> cases l3 <;> cases l4 <;> cases l5 <;>
    simp [PickRouterClient]

/-- C6 witness: empty candidate lists (despite task errors being
reported) yield the "No services found" error, via the main theorem. -/
theorem PickRouterClient_error_witness :
    PickRouterClient natDiscEmpty = Except.error "No services found" :=
  (PickRouterClient_error_iff_all_empty natDiscEmpty).1.mpr ⟨rfl, rfl, rfl, rfl, rfl⟩

/-- A port with a supported protocol resolves to the protocol string
packed by `upnpProto`. -/
theorem toUPnPProtocol_eq_upnpProto (sp : ServicePort)
    (h : (toUPnPProtocol sp.protocol).isOk = true) :
    toUPnPProtocol sp.protocol = Except.ok (upnpProto sp) := by
  unfold upnpProto
  cases h2 : toUPnPProtocol sp.protocol with
  | error e => rw [h2] at h; exact absurd h (by simp [Except.isOk, Except.toBool])
  | ok p => rfl

/-- Every `AddPortMapping` request the port loop issues carries the
fixed lease duration, resolves its external port from the remap table
with identity default, and targets some declared port reduced
modulo 2^16. -/
theorem applyForwards_calls_spec (router : RouterModel) (pm : List (Nat × Nat))
    (sip desc : String) :
    ∀ (ports : List ServicePort) (args : AddPortMappingArgs),
      GatewayCall.addPortMapping args ∈ (applyForwards router pm sip desc ports).1 →
      args.leaseDuration = leaseDurationSeconds ∧
      args.externalPort = (lookupPM pm args.internalPort).getD args.internalPort ∧
      ∃ sp ∈ ports, args.internalPort = (sp.port % 65536).toNat := by
  intro ports
  induction ports with
  | nil => intro args h; simp [applyForwards] at h
  | cons sp rest ih =>
    intro args h
    cases hproto : toUPnPProtocol sp.protocol with
    | error e =>
      rw [show applyForwards router pm sip desc (sp :: rest) = ([], some e) from by
        simp [applyForwards, hproto]] at h
      simp at h
    | ok p =>
      cases hadd : router.addPortMapping (mkPortMappingArgs pm sip desc (toUint16 sp.port) p) with
      | error e =>
        rw [show applyForwards router pm sip desc (sp :: rest) =
          ([GatewayCall.addPortMapping (mkPortMappingArgs pm sip desc (toUint16 sp.port) p)],
            some e) from by simp [applyForwards, hproto, hadd]] at h
        simp only [List.mem_singleton, GatewayCall.addPortMapping.injEq] at h
        subst h
        exact ⟨rfl, rfl, sp, by simp, rfl⟩
      | ok u =>
        cases u
        rw [show applyForwards router pm sip desc (sp :: rest) =
          (GatewayCall.addPortMapping (mkPortMappingArgs pm sip desc (toUint16 sp.port) p) ::
            (applyForwards router pm sip desc rest).1,
            (applyForwards router pm sip desc rest).2) from by
              simp [applyForwards, hproto, hadd]] at h
        rcases List.mem_cons.mp h with heq | hmem
        · simp only [GatewayCall.addPortMapping.injEq] at heq
          subst heq
          exact ⟨rfl, rfl, sp, by simp, rfl⟩
        · obtain ⟨h1, h2, sp2, hsp2, h3⟩ := ih args hmem
          exact ⟨h1, h2, sp2, by simp [hsp2], h3⟩

/-- C7: the port loop issues one `AddPortMapping` request per declared
port, sequentially in the declared order; at the first port whose
request fails it stops and returns that error, with the requests already
issued for earlier ports still in the trace (not rolled back) and no
request issued for any later port. -/
theorem applyForwards_stops_at_first_error (router : RouterModel) (pm : List (Nat × Nat))
    (sip desc : String) (good : List ServicePort) (bad : ServicePort)
    (later : List ServicePort) (e : String)
    (hprot : ∀ sp ∈ good, (toUPnPProtocol sp.protocol).isOk = true)
    (hprotbad : (toUPnPProtocol bad.protocol).isOk = true)
    (hgood : ∀ sp ∈ good, router.addPortMapping (argsFor pm sip desc sp) = Except.ok ())
    (hbad : router.addPortMapping (argsFor pm sip desc bad) = Except.error e) :
    applyForwards router pm sip desc (good ++ bad :: later) =
      ((good ++ [bad]).map (fun sp => GatewayCall.addPortMapping (argsFor pm sip desc sp)),
        some e) := by
  revert hprot hgood
  induction good with
  | nil =>
    intro hprot hgood
    have hp := toUPnPProtocol_eq_upnpProto bad hprotbad
    simp only [argsFor] at hbad
    simp only [List.nil_append, List.map_cons, List.map_nil]
    simp [applyForwards, hp, hbad, argsFor]
  | cons sp good ih =>
    intro hprot hgood
    have hps := hprot sp (by simp)
    have hp := toUPnPProtocol_eq_upnpProto sp hps
    have hgs := hgood sp (by simp)
    simp only [argsFor] at hgs
    simp only [List.cons_append, List.map_cons]
    rw [show applyForwards router pm sip desc (sp :: (good ++ bad :: later)) =
      (GatewayCall.addPortMapping (mkPortMappingArgs pm sip desc (toUint16 sp.port) (upnpProto sp)) ::
        (applyForwards router pm sip desc (good ++ bad :: later)).1,
        (applyForwards router pm sip desc (good ++ bad :: later)).2) from by
          simp [applyForwards, hp, hgs]]
    rw [ih (fun x hx => hprot x (by simp [hx])) (fun x hx => hgood x (by simp [hx]))]
    simp [argsFor]

/-- C7 witness: a router that refuses internal port 443 — ports 80 and
443 are attempted in order, the error is returned, and port 8080 is
never attempted, via the main theorem. -/
theorem applyForwards_stops_witness :
    applyForwards failOn443Router [] "10.0.0.5" "d"
      [⟨80, "TCP"⟩, ⟨443, "TCP"⟩, ⟨8080, "TCP"⟩] =
      ([GatewayCall.addPortMapping (argsFor [] "10.0.0.5" "d" ⟨80, "TCP"⟩),
        GatewayCall.addPortMapping (argsFor [] "10.0.0.5" "d" ⟨443, "TCP"⟩)],
        some "router refused") := by
  have h := applyForwards_stops_at_first_error failOn443Router [] "10.0.0.5" "d"
    [⟨80, "TCP"⟩] ⟨443, "TCP"⟩ [⟨8080, "TCP"⟩] "router refused"
    (by intro sp hsp; rw [List.mem_singleton] at hsp; subst hsp; rfl)
    (by rfl)
    (by intro sp hsp; rw [List.mem_singleton] at hsp; subst hsp; rfl)
    (by rfl)
  simpa using h

/-- C8: every issued request's external port is the remap-table entry
for its internal port when present, and the internal port itself when
absent; with remap 80↦3000, 443↦4000 the scenario service forwards
ports 80, 443, 8080 to external 3000, 4000, 8080. -/
theorem applyForwards_external_port_resolution :
    (∀ (router : RouterModel) (pm : List (Nat × Nat)) (sip desc : String)
        (ports : List ServicePort) (args : AddPortMappingArgs),
      GatewayCall.addPortMapping args ∈ (applyForwards router pm sip desc ports).1 →
      args.externalPort = (lookupPM pm args.internalPort).getD args.internalPort) ∧
    reconcile scenarioService (oneRouterDisc okRouter) =
      { calls := [GatewayCall.discover, GatewayCall.getExternalIP,
          GatewayCall.addPortMapping
            ⟨"", 3000, "TCP", 80, "192.168.1.50", true, "Mapping for my-service/default", 3600⟩,
          GatewayCall.addPortMapping
            ⟨"", 4000, "TCP", 443, "192.168.1.50", true, "Mapping for my-service/default", 3600⟩,
          GatewayCall.addPortMapping
            ⟨"", 8080, "TCP", 8080, "192.168.1.50", true, "Mapping for my-service/default", 3600⟩],
        requeueAfterSeconds := 3570, err := none } := by
  refine ⟨?_, by rfl⟩
  intro router pm sip desc ports args h
  exact (applyForwards_calls_spec router pm sip desc ports args h).2.1

/-- C8 witness: the request issued for port 80 under remap 80↦3000
carries external port 3000, via the main theorem. -/
theorem applyForwards_external_port_witness :
    (AddPortMappingArgs.mk "" 3000 "TCP" 80 "192.168.1.50" true "d" 3600).externalPort =
      (lookupPM [(80, 3000), (443, 4000)]
          (AddPortMappingArgs.mk "" 3000 "TCP" 80 "192.168.1.50" true "d" 3600).internalPort).getD
        (AddPortMappingArgs.mk "" 3000 "TCP" 80 "192.168.1.50" true "d" 3600).internalPort :=
  applyForwards_external_port_resolution.1 okRouter [(80, 3000), (443, 4000)]
    "192.168.1.50" "d" [⟨80, "TCP"⟩] _ (by decide)

/-- C9: on a fully successful reconciliation of an opted-in LoadBalancer
service, every issued `AddPortMapping` request carries the fixed lease
duration of 3600 seconds, and the requested requeue delay is the lease
duration minus the 30-second safety margin — exactly 3570 seconds. -/
theorem reconcile_lease_and_requeue (s : ServiceModel) (d : DiscoveryResults RouterModel)
    (hopt : hasHolepunchAnnot s.annotations = true)
    (hty : s.svcType = "LoadBalancer")
    (hok : (reconcile s d).err = none) :
    (reconcile s d).requeueAfterSeconds = leaseDurationSeconds - 30 ∧
    (reconcile s d).requeueAfterSeconds = 3570 ∧
    ∀ args, GatewayCall.addPortMapping args ∈ (reconcile s d).calls →
      args.leaseDuration = 3600 := by
  cases hpm : getHolepunchPortMapping s.annotations with
  | error e =>
    have : reconcile s d = { calls := [], requeueAfterSeconds := 0, err := some e } := by
      simp [reconcile, hopt, hty, hpm]
    rw [this] at hok
    simp at hok
  | ok pm =>
    cases hpick : PickRouterClient d with
    | error e =>
      have : reconcile s d =
          { calls := [GatewayCall.discover], requeueAfterSeconds := 0, err := some e } := by
        simp [reconcile, hopt, hty, hpm, hpick]
      rw [this] at hok
      simp at hok
    | ok router =>
      cases hext : router.getExternalIPAddress with
      | error e =>
        have : reconcile s d =
            { calls := [GatewayCall.discover, GatewayCall.getExternalIP],
              requeueAfterSeconds := 0, err := some e } := by
          simp [reconcile, hopt, hty, hpm, hpick, hext]
        rw [this] at hok
        simp at hok
      | ok eip =>
        cases hip : getServiceIP s.ingressIPs with
        | error e =>
          have : reconcile s d =
              { calls := [GatewayCall.discover, GatewayCall.getExternalIP],
                requeueAfterSeconds := 0, err := some e } := by
            simp [reconcile, hopt, hty, hpm, hpick, hext, hip]
          rw [this] at hok
          simp at hok
        | ok sip =>
          cases happ : (applyForwards router pm sip
              ("Mapping for " ++ s.name ++ "/" ++ s.nspace) s.ports).2 with
          | some e =>
            have : reconcile s d =
                { calls := GatewayCall.discover :: GatewayCall.getExternalIP ::
                    (applyForwards router pm sip
                      ("Mapping for " ++ s.name ++ "/" ++ s.nspace) s.ports).1,
                  requeueAfterSeconds := 0, err := some e } := by
              simp [reconcile, hopt, hty, hpm, hpick, hext, hip, happ]
            rw [this] at hok
            simp at hok
          | none =>
            have hrec : reconcile s d =
                { calls := GatewayCall.discover :: GatewayCall.getExternalIP ::
                    (applyForwards router pm sip
                      ("Mapping for " ++ s.name ++ "/" ++ s.nspace) s.ports).1,
                  requeueAfterSeconds := leaseDurationSeconds - 30, err := none } := by
              simp [reconcile, hopt, hty, hpm, hpick, hext, hip, happ]
            rw [hrec]
            refine ⟨rfl, rfl, ?_⟩
            intro args hmem
            simp only [List.mem_cons] at hmem
            rcases hmem with h1 | h1 | h1
            · simp at h1
            · simp at h1
            · exact (applyForwards_calls_spec router pm sip _ s.ports args h1).1

/-- C9 witness: the successful scenario run requests a 3570-second
requeue, via the main theorem. -/
theorem reconcile_lease_witness :
    (reconcile scenarioService (oneRouterDisc okRouter)).requeueAfterSeconds = 3570 :=
  (reconcile_lease_and_requeue scenarioService (oneRouterDisc okRouter)
    (by decide) (by rfl) (by rfl)).2.1

/-- C10: every issued request's internal port is some declared port
reduced modulo 2^16 (Go's unchecked int32→uint16 conversion), and the
service declaring out-of-range ports 70000 and -1 is reconciled without
error, issuing requests for the wrapped ports 4464 and 65535 instead of
being rejected. -/
theorem reconcile_port_cast_wraps :
    (∀ (router : RouterModel) (pm : List (Nat × Nat)) (sip desc : String)
        (ports : List ServicePort) (args : AddPortMappingArgs),
      GatewayCall.addPortMapping args ∈ (applyForwards router pm sip desc ports).1 →
      ∃ sp ∈ ports, args.internalPort = (sp.port % 65536).toNat) ∧
    (reconcile wrapService (oneRouterDisc okRouter)).err = none ∧
    (reconcile wrapService (oneRouterDisc okRouter)).calls =
      [GatewayCall.discover, GatewayCall.getExternalIP,
        GatewayCall.addPortMapping
          ⟨"", 4464, "TCP", 4464, "10.0.0.9", true, "Mapping for wrap/default", 3600⟩,
        GatewayCall.addPortMapping
          ⟨"", 65535, "TCP", 65535, "10.0.0.9", true, "Mapping for wrap/default", 3600⟩] := by
  refine ⟨?_, by rfl, by rfl⟩
  intro router pm sip desc ports args h
  exact (applyForwards_calls_spec router pm sip desc ports args h).2.2

/-- C10 witness: the request issued for declared port 70000 targets the
wrapped internal port 4464, via the main theorem. -/
theorem reconcile_port_cast_witness :
    ∃ sp ∈ [(⟨70000, "TCP"⟩ : ServicePort)],
      (AddPortMappingArgs.mk "" 4464 "TCP" 4464 "10.0.0.9" true "d" 3600).internalPort =
        (sp.port % 65536).toNat :=
  reconcile_port_cast_wraps.1 okRouter [] "10.0.0.9" "d" [⟨70000, "TCP"⟩] _ (by decide)

end Holepunch
